import Mathlib

/-!
Shallow embedding of the server core of the Chat-webv1 repository
(`src/server/storage.ts`, `src/server/routes.ts`).

Timestamps are modelled as `Int` (JavaScript epoch milliseconds); record
ids as `Nat`.  The Postgres tables behind drizzle are modelled as lists in
insertion order; a drizzle `select ... where eq(col, v) ... limit 1`
becomes `List.find?`, a filtering `update`/`delete` with `.returning()`
becomes a map/filter over that list, and `orderBy(col)` becomes a stable
sort by that column.  The in-memory JavaScript `Map`s of `PostgresStorage`
(`userActivity`, `themes`) are modelled as `Nat → Option _` lookup
functions, which is faithful because the source only ever calls
`get`/`set` on them.
-/

namespace ChatWeb

/-- A row of the `users` table (`@shared/schema` / `storage.ts`).
`password` is `Option` so that the router/storage idiom
`const (\x7b password, ...rest \x7d) = user` (deleting the key before
transmission) can be modelled as setting it to `none`; rows stored in the
table always carry `some` password. -/
structure User where
  id : Nat
  username : String
  email : String
  password : Option String
  firstName : String
  lastName : String
  avatar : Option String
  createdAt : Int
  lastActivity : Option Int
deriving Repr, DecidableEq

/-- A row of the `messages` table. -/
structure Message where
  id : Nat
  content : String
  username : String
  userId : Nat
  attachmentUrl : Option String
  attachmentType : Option String
  attachmentName : Option String
  createdAt : Int
  updatedAt : Option Int
deriving Repr, DecidableEq

/-- The payload accepted by `updateMessageSchema`.  Modelled from the spec:
`@shared/schema` is not among the given sources, and the spec states the
update schema admits the `content` field only. -/
structure UpdateMessage where
  content : String
deriving Repr, DecidableEq

/-- Sign-up payload (`signUpSchema`), already shape-validated. -/
structure SignUpData where
  username : String
  email : String
  password : String
  firstName : String
  lastName : String
deriving Repr, DecidableEq

/-- The Postgres database state: both tables as lists in insertion order.
`nextUserId` — modelled from the spec: the `users.id` column is a
database-assigned sequentially increasing identity column declared in
`@shared/schema`, which is not among the given sources; the spec says
"numeric id (unique, assigned sequentially)". -/
structure DB where
  users : List User
  messages : List Message
  nextUserId : Nat
deriving Repr, DecidableEq

/-- `PostgresStorage.getMessageById`: `select ... where eq(messages.id, id)
limit 1`. -/
def getMessageById (db : DB) (id : Nat) : Option Message :=
  db.messages.find? (fun m => m.id == id)

/-- The row transformation applied by `PostgresStorage.updateMessage`:
`.set({ ...updates, updatedAt: new Date() })`. -/
def applyUpdate (updates : UpdateMessage) (now : Int) (m : Message) : Message :=
  { m with content := updates.content, updatedAt := some now }

/-- `PostgresStorage.updateMessage`.  The source's `where` clause is
`eq(messages.id, id) && eq(messages.userId, userId)`: JavaScript `&&`
applied to two (always truthy) drizzle condition objects evaluates to its
second operand, so the executed SQL matches on `userId` alone and the `id`
argument is ignored.  `.returning()` yields the updated rows and the
handler result is `result[0] || null`, modelled as `.head?`. -/
def updateMessage (db : DB) (id : Nat) (userId : Nat) (updates : UpdateMessage)
    (now : Int) : DB × Option Message :=
  let _ := id
  let touched := (db.messages.filter (fun m => m.userId == userId)).map
    (applyUpdate updates now)
  let rest := db.messages.map
    (fun m => if m.userId == userId then applyUpdate updates now m else m)
  ({ db with messages := rest }, touched.head?)

/-- `PostgresStorage.deleteMessage`.  Same `&&` slip as `updateMessage`:
the executed `where` clause is `eq(messages.userId, userId)` alone.
Returns `result.length > 0` over the deleted rows. -/
def deleteMessage (db : DB) (id : Nat) (userId : Nat) : DB × Bool :=
  let _ := id
  let removed := db.messages.filter (fun m => m.userId == userId)
  let rest := db.messages.filter (fun m => !(m.userId == userId))
  ({ db with messages := rest }, removed.length > 0)

/-- The `≤`-by-`createdAt` relation used to order the message feed. -/
def msgLE (a b : Message) : Prop := a.createdAt ≤ b.createdAt

instance : DecidableRel msgLE := fun a b => Int.decLe a.createdAt b.createdAt

instance : IsTotal Message msgLE := ⟨fun a b => Int.le_total a.createdAt b.createdAt⟩

instance : IsTrans Message msgLE := ⟨fun _ _ _ => Int.le_trans⟩

/-- `PostgresStorage.getMessages`: `select ... orderBy(messages.createdAt)`,
ascending; modelled as a stable sort of the insertion-ordered table. -/
def getMessages (db : DB) : List Message :=
  List.insertionSort msgLE db.messages

/-- Strips the password key, as in
`const (\x7b password, ...userWithoutPassword \x7d) = user`. -/
def stripPassword (u : User) : User :=
  { u with password := none }

/-- `PostgresStorage.getAllUsers`: every row, password stripped. -/
def getAllUsers (db : DB) : List User :=
  db.users.map stripPassword

/-- `PostgresStorage.getUserByEmail`: `select ... where eq(users.email, email)
limit 1`. -/
def getUserByEmail (db : DB) (email : String) : Option User :=
  db.users.find? (fun u => u.email == email)

/-- `PostgresStorage.getUserByUsername`. -/
def getUserByUsername (db : DB) (username : String) : Option User :=
  db.users.find? (fun u => u.username == username)

/-- `PostgresStorage.createUser`: inserts the sign-up data with
`avatar: null, lastActivity: null` and returns the inserted row.  The id
and `createdAt` are assigned by the database; the id column is modelled
from the spec as the sequential counter `nextUserId` (see `DB`). -/
def createUser (db : DB) (s : SignUpData) (now : Int) : DB × User :=
  let u : User :=
    { id := db.nextUserId, username := s.username, email := s.email,
      password := some s.password, firstName := s.firstName,
      lastName := s.lastName, avatar := none, createdAt := now,
      lastActivity := none }
  ({ db with users := db.users ++ [u], nextUserId := db.nextUserId + 1 }, u)

/-- A named chat palette (`chatThemes` shape, seeded in `storage.ts`). -/
structure ChatTheme where
  id : Nat
  name : String
  primaryColor : String
  secondaryColor : String
  backgroundColor : String
  messageBackgroundSelf : String
  messageBackgroundOther : String
  textColor : String
  isActive : Bool
  createdAt : Int
deriving Repr, DecidableEq, Inhabited

/-- The six seeded palettes of `PostgresStorage` (color strings carried
verbatim; the shared seeding timestamp `new Date()` is modelled as 0). -/
def defaultThemes : List ChatTheme :=
  [ { id := 1, name := "Classic Blue", primaryColor := "#3b82f6",
      secondaryColor := "#1e40af", backgroundColor := "#f8fafc",
      messageBackgroundSelf := "#3b82f6", messageBackgroundOther := "#e2e8f0",
      textColor := "#1e293b", isActive := true, createdAt := 0 },
    { id := 2, name := "Sunset Orange", primaryColor := "#f59e0b",
      secondaryColor := "#d97706", backgroundColor := "#fef3c7",
      messageBackgroundSelf := "#f59e0b", messageBackgroundOther := "#fed7aa",
      textColor := "#92400e", isActive := false, createdAt := 0 },
    { id := 3, name := "Forest Green", primaryColor := "#10b981",
      secondaryColor := "#059669", backgroundColor := "#ecfdf5",
      messageBackgroundSelf := "#10b981", messageBackgroundOther := "#d1fae5",
      textColor := "#064e3b", isActive := false, createdAt := 0 },
    { id := 4, name := "Purple Dreams", primaryColor := "#8b5cf6",
      secondaryColor := "#7c3aed", backgroundColor := "#f3f4f6",
      messageBackgroundSelf := "#8b5cf6", messageBackgroundOther := "#e5e7eb",
      textColor := "#374151", isActive := false, createdAt := 0 },
    { id := 5, name := "Rose Gold", primaryColor := "#f43f5e",
      secondaryColor := "#e11d48", backgroundColor := "#fdf2f8",
      messageBackgroundSelf := "#f43f5e", messageBackgroundOther := "#fce7f3",
      textColor := "#881337", isActive := false, createdAt := 0 },
    { id := 6, name := "Dark Mode", primaryColor := "#6366f1",
      secondaryColor := "#4f46e5", backgroundColor := "#111827",
      messageBackgroundSelf := "#6366f1", messageBackgroundOther := "#374151",
      textColor := "#f9fafb", isActive := false, createdAt := 0 } ]

/-- The `themes` map built by the constructor: each seeded theme keyed by
its id (`themes.set(theme.id, theme)`), queried only through `get`. -/
def themesMap : Nat → Option ChatTheme :=
  fun i => defaultThemes.find? (fun th => th.id == i)

/-- The in-memory state of `PostgresStorage`: the `userActivity` map
(userId → last-seen timestamp), the seeded `themes` map and the
`currentTheme` pointer (`themes.get(1)!` at construction). -/
structure StorageState where
  userActivity : Nat → Option Int
  themes : Nat → Option ChatTheme
  currentTheme : ChatTheme

/-- The state right after the `PostgresStorage` constructor ran. -/
def initialStorage : StorageState :=
  { userActivity := fun _ => none, themes := themesMap,
    currentTheme := (themesMap 1).getD default }

/-- `PostgresStorage.getActiveTheme`. -/
def getActiveTheme (st : StorageState) : ChatTheme :=
  st.currentTheme

/-- `PostgresStorage.setActiveTheme`: throws "Theme with ID ... not found"
when the id is not a key of the themes map (the throw happens before any
mutation, so the state component of the error case is the input state);
otherwise repoints `currentTheme` and returns the theme. -/
def setActiveTheme (st : StorageState) (themeId : Nat) :
    StorageState × Except String ChatTheme :=
  match st.themes themeId with
  | none => (st, Except.error ("Theme with ID " ++ toString themeId ++ " not found"))
  | some theme => ({ st with currentTheme := theme }, Except.ok theme)

/-- `PostgresStorage.isUserActive`: active iff no heartbeat was ever
recorded, or the recorded heartbeat is strictly later than
`Date.now() - 5 * 60 * 1000`. -/
def isUserActive (st : StorageState) (now : Int) (userId : Nat) : Bool :=
  let fiveMinutesAgo := now - 5 * 60 * 1000
  match st.userActivity userId with
  | none => true
  | some lastActive => fiveMinutesAgo < lastActive

/-- The users the `forEach` loop of `PostgresStorage.getUsersCount`
increments for. -/
def activeUsers (db : DB) (st : StorageState) (now : Int) : List User :=
  db.users.filter (fun u => isUserActive st now u.id)

/-- `PostgresStorage.getUsersCount`: counts the database users that pass
`isUserActive`. -/
def getUsersCount (db : DB) (st : StorageState) (now : Int) : Nat :=
  (activeUsers db st now).length

/-- `PostgresStorage.getOnlineUsers`: every database user, password
stripped, `lastActivity` replaced by the in-memory heartbeat (`null` when
absent); no activity filtering. -/
def getOnlineUsers (db : DB) (st : StorageState) : List User :=
  db.users.map (fun u => { stripPassword u with lastActivity := st.userActivity u.id })

/-- `PostgresStorage.updateUserActivity`: records `now` in the in-memory
map and mirrors it into the user row's `lastActivity` column. -/
def updateUserActivity (st : StorageState) (db : DB) (userId : Nat) (now : Int) :
    StorageState × DB :=
  ({ st with userActivity := fun k => if k == userId then some now else st.userActivity k },
   { db with users := (db.users.map
      (fun u => if u.id == userId then { u with lastActivity := some now } else u)) })

/-- Outcome of the `POST /api/auth/signup` handler in `routes.ts`,
paired with the HTTP status it is sent with. -/
inductive SignupOutcome where
  | created (user : User)
  | duplicateEmail
  | duplicateUsername
deriving Repr, DecidableEq

/-- The `POST /api/auth/signup` handler (`routes.ts`) on an
already-shape-valid payload: rejects with 400 when the email, then the
username, is already taken (leaving the database untouched); otherwise
creates the user and answers 201 with the password stripped. -/
def signupHandler (db : DB) (s : SignUpData) (now : Int) :
    DB × SignupOutcome × Nat :=
  match getUserByEmail db s.email with
  | some _ => (db, SignupOutcome.duplicateEmail, 400)
  | none =>
    match getUserByUsername db s.username with
    | some _ => (db, SignupOutcome.duplicateUsername, 400)
    | none =>
      let r := createUser db s now
      (r.1, SignupOutcome.created (stripPassword r.2), 201)

/-- The storage operations that touch the in-memory `StorageState`
(everything else only touches the database tables). -/
inductive StOp where
  | setTheme (themeId : Nat)
  | heartbeat (userId : Nat) (now : Int)
deriving Repr, DecidableEq

/-- One in-memory-state-touching operation (a failed `setActiveTheme`
throws before mutating, so it leaves the state as is). -/
def applyOp (st : StorageState) (db : DB) : StOp → StorageState × DB
  | StOp.setTheme tid => ((setActiveTheme st tid).1, db)
  | StOp.heartbeat uid now => updateUserActivity st db uid now

/-- A whole interleaving of state-touching operations. -/
def applyOps (ops : List StOp) (st : StorageState) (db : DB) :
    StorageState × DB :=
  ops.foldl (fun p op => applyOp p.1 p.2 op) (st, db)

/-! Concrete fixtures used to evaluate the model on explicit inputs. -/

/-- A message posted by user 1. -/
def mAlice : Message :=
  { id := 1, content := "hello", username := "alice", userId := 1,
    attachmentUrl := none, attachmentType := none, attachmentName := none,
    createdAt := 10, updatedAt := none }

/-- A message posted by user 2. -/
def mBob : Message :=
  { id := 2, content := "hi", username := "bob", userId := 2,
    attachmentUrl := none, attachmentType := none, attachmentName := none,
    createdAt := 20, updatedAt := none }

/-- A second message posted by user 1. -/
def mAlice2 : Message :=
  { id := 3, content := "again", username := "alice", userId := 1,
    attachmentUrl := none, attachmentType := none, attachmentName := none,
    createdAt := 30, updatedAt := none }

/-- A stored user row. -/
def uAlice : User :=
  { id := 1, username := "alice", email := "a@x.com",
    password := some "pw1", firstName := "Alice", lastName := "A",
    avatar := none, createdAt := 0, lastActivity := none }

/-- A database holding one message of user 1 and one of user 2. -/
def dbTwoAuthors : DB :=
  { users := [uAlice], messages := [mAlice, mBob], nextUserId := 2 }

/-- A database holding two messages of user 1. -/
def dbOneAuthor : DB :=
  { users := [uAlice], messages := [mAlice, mAlice2], nextUserId := 2 }

/-! Theorems. -/

/-- C1: refuted on the code.  With the stored messages `[mAlice, mBob]`
(owned by users 1 and 2), calling `updateMessage mAlice.id 2 patch` — user
2 editing user 1's message — is claimed to return `null` and change
nothing.  Because the `&&` in the `where` clause discards the id
condition, the call instead rewrites user 2's own message `mBob` and
returns that updated row, not `null`. -/
theorem updateMessage_cross_user_eval :
    mAlice.userId ≠ 2 ∧
    (updateMessage dbTwoAuthors mAlice.id 2 ⟨"edited"⟩ 100).2 =
      some { mBob with content := "edited", updatedAt := some 100 } ∧
    (updateMessage dbTwoAuthors mAlice.id 2 ⟨"edited"⟩ 100).1.messages =
      [mAlice, { mBob with content := "edited", updatedAt := some 100 }] := by
  refine ⟨by decide, ?_, ?_⟩ <;> rfl

/-- C2: refuted on the code.  With two stored messages of user 1,
`deleteMessage mAlice.id 1` is claimed to remove only the row with id
`mAlice.id`.  Because the `&&` in the `where` clause discards the id
condition, it deletes every message owned by user 1: `mAlice2`
(id 3 ≠ 1) is removed as well. -/
theorem deleteMessage_cross_id_eval :
    mAlice2 ∈ dbOneAuthor.messages ∧
    mAlice2.id ≠ mAlice.id ∧
    (deleteMessage dbOneAuthor mAlice.id mAlice.userId).2 = true ∧
    (deleteMessage dbOneAuthor mAlice.id mAlice.userId).1.messages = [] := by
  refine ⟨by decide, by decide, ?_, ?_⟩ <;> rfl

/-- C3: for a stored message `m` (message ids being unique, as the primary
key column guarantees), `deleteMessage m.id m.userId` reports success and
a subsequent `getMessageById m.id` finds nothing. -/
theorem deleteMessage_own_then_gone (db : DB) (m : Message)
    (hm : m ∈ db.messages) (hids : (db.messages.map Message.id).Nodup) :
    (deleteMessage db m.id m.userId).2 = true ∧
    getMessageById (deleteMessage db m.id m.userId).1 m.id = none := by
  constructor
  · have hmem : m ∈ db.messages.filter (fun x => x.userId == m.userId) :=
      List.mem_filter.mpr ⟨hm, by simp⟩
    simp [deleteMessage]
    exact List.length_pos.mpr (List.ne_nil_of_mem hmem)
  · simp only [deleteMessage, getMessageById, List.find?_eq_none]
    intro x hx
    have hx' := List.mem_filter.mp hx
    have hne : x.userId ≠ m.userId := by
      have := hx'.2
      simp at this
      exact this
    intro hid
    have hxm : x = m :=
      List.inj_on_of_nodup_map hids hx'.1 hm (by simpa using hid)
    exact hne (by rw [hxm])

/-- Witness for C3 at the concrete database `dbOneAuthor` and message
`mAlice`. -/
theorem deleteMessage_own_then_gone_witness :
    mAlice ∈ dbOneAuthor.messages ∧
    (dbOneAuthor.messages.map Message.id).Nodup ∧
    ((deleteMessage dbOneAuthor mAlice.id mAlice.userId).2 = true ∧
      getMessageById (deleteMessage dbOneAuthor mAlice.id mAlice.userId).1
        mAlice.id = none) :=
  ⟨by decide, by decide,
    deleteMessage_own_then_gone dbOneAuthor mAlice (by decide) (by decide)⟩

/-- C4: `getUsersCount` counts exactly the database users passing
`isUserActive`; a user id passes iff it has no heartbeat record or its
last heartbeat is less than five minutes old; and after a heartbeat at
time `T` the id passes at `T + 4min` but not at `T + 6min`. -/
theorem getUsersCount_active_iff (db : DB) (st : StorageState)
    (now T : Int) (uid : Nat) (u : User) :
    getUsersCount db st now =
      (db.users.filter (fun v => isUserActive st now v.id)).length ∧
    (u ∈ activeUsers db st now ↔
      u ∈ db.users ∧ isUserActive st now u.id = true) ∧
    (isUserActive st now uid = true ↔
      (st.userActivity uid = none ∨
        ∃ t, st.userActivity uid = some t ∧ now - t < 5 * 60 * 1000)) ∧
    isUserActive (updateUserActivity st db uid T).1 (T + 4 * 60 * 1000) uid
      = true ∧
    isUserActive (updateUserActivity st db uid T).1 (T + 6 * 60 * 1000) uid
      = false := by
  refine ⟨rfl, List.mem_filter, ?_, ?_, ?_⟩
  · unfold isUserActive
    cases h : st.userActivity uid with
    | none => simp
    | some t => simp; omega
  · simp [updateUserActivity, isUserActive]
    omega
  · simp [updateUserActivity, isUserActive]
    omega

/-- C5: signing up with an email already present in the user table
answers HTTP 400 with the duplicate-email outcome and leaves the user
table exactly as it was. -/
theorem signup_duplicate_email (db : DB) (s : SignUpData) (now : Int)
    (h : ∃ u ∈ db.users, u.email = s.email) :
    signupHandler db s now = (db, SignupOutcome.duplicateEmail, 400) := by
  obtain ⟨u, hu, he⟩ := h
  have hsome : (getUserByEmail db s.email).isSome := by
    simp only [getUserByEmail, List.find?_isSome]
    exact ⟨u, hu, by simp [he]⟩
  obtain ⟨v, hv⟩ := Option.isSome_iff_exists.mp hsome
  simp [signupHandler, hv]

/-- Witness for C5: re-registering `uAlice`'s email on `dbOneAuthor`. -/
theorem signup_duplicate_email_witness :
    (∃ u ∈ dbOneAuthor.users, u.email = "a@x.com") ∧
    signupHandler dbOneAuthor
        ⟨"newbie", "a@x.com", "pw2", "New", "Person"⟩ 50 =
      (dbOneAuthor, SignupOutcome.duplicateEmail, 400) :=
  ⟨⟨uAlice, by decide, rfl⟩,
    signup_duplicate_email dbOneAuthor
      ⟨"newbie", "a@x.com", "pw2", "New", "Person"⟩ 50 ⟨uAlice, by decide, rfl⟩⟩

/-- The seeded themes map has exactly the keys 1..6. -/
lemma themesMap_eq_none_outside (tid : Nat) (h : ¬(1 ≤ tid ∧ tid ≤ 6)) :
    themesMap tid = none := by
  have e1 : ((1 : Nat) == tid) = false := by simp; omega
  have e2 : ((2 : Nat) == tid) = false := by simp; omega
  have e3 : ((3 : Nat) == tid) = false := by simp; omega
  have e4 : ((4 : Nat) == tid) = false := by simp; omega
  have e5 : ((5 : Nat) == tid) = false := by simp; omega
  have e6 : ((6 : Nat) == tid) = false := by simp; omega
  simp [themesMap, defaultThemes, e1, e2, e3, e4, e5, e6]

/-- C6: for any theme id outside the six seeded ones, `setActiveTheme`
fails with the "Theme with ID ... not found" error and leaves the storage
state — hence `getActiveTheme` — untouched. -/
theorem setActiveTheme_unknown_id (st : StorageState) (tid : Nat)
    (hst : st.themes = themesMap) (h : ¬(1 ≤ tid ∧ tid ≤ 6)) :
    setActiveTheme st tid =
      (st, Except.error ("Theme with ID " ++ toString tid ++ " not found")) ∧
    getActiveTheme (setActiveTheme st tid).1 = getActiveTheme st := by
  have hnone : st.themes tid = none := by
    rw [hst]; exact themesMap_eq_none_outside tid h
  constructor
  · simp [setActiveTheme, hnone]
  · simp [setActiveTheme, hnone]

/-- Witness for C6 at the freshly constructed storage and theme id 7. -/
theorem setActiveTheme_unknown_id_witness :
    initialStorage.themes = themesMap ∧ ¬(1 ≤ 7 ∧ 7 ≤ 6) ∧
    (setActiveTheme initialStorage 7 =
      (initialStorage,
        Except.error ("Theme with ID " ++ toString 7 ++ " not found")) ∧
     getActiveTheme (setActiveTheme initialStorage 7).1 =
       getActiveTheme initialStorage) :=
  ⟨rfl, by decide, setActiveTheme_unknown_id initialStorage 7 rfl (by decide)⟩

/-- Inserting a message into a list keeps, for each timestamp `t`, the
sublist of messages carrying `t`: the inserted element lands in front of
that sublist when its own timestamp is `t` (everything placed before it
has a strictly smaller timestamp). -/
lemma filter_createdAt_orderedInsert (t : Int) (a : Message) (l : List Message) :
    (List.orderedInsert msgLE a l).filter (fun m => m.createdAt == t) =
      if a.createdAt == t
      then a :: l.filter (fun m => m.createdAt == t)
      else l.filter (fun m => m.createdAt == t) := by
  induction l with
  | nil =>
    cases h : (a.createdAt == t) <;>
      simp [List.orderedInsert, List.filter_cons, h]
  | cons b l ih =>
    simp only [List.orderedInsert]
    by_cases hab : msgLE a b
    · rw [if_pos hab]
      by_cases hat : (a.createdAt == t)
      · simp [List.filter_cons, hat]
      · simp [List.filter_cons, hat]
    · rw [if_neg hab]
      have hba : b.createdAt < a.createdAt := by
        simp [msgLE] at hab; omega
      by_cases hat : a.createdAt = t
      · have hbt : (b.createdAt == t) = false := by simp; omega
        simp [List.filter_cons, hbt, ih, hat]
      · have hat' : (a.createdAt == t) = false := by simp [hat]
        simp [List.filter_cons, ih, hat']

/-- The sort behind `getMessages` is stable: it permutes messages but
never reorders two messages with the same `createdAt`. -/
lemma filter_createdAt_insertionSort (t : Int) (l : List Message) :
    (List.insertionSort msgLE l).filter (fun m => m.createdAt == t) =
      l.filter (fun m => m.createdAt == t) := by
  induction l with
  | nil => rfl
  | cons x l ih =>
    simp only [List.insertionSort]
    rw [filter_createdAt_orderedInsert]
    by_cases hxt : (x.createdAt == t)
    · simp [List.filter_cons, hxt, ih]
    · simp [List.filter_cons, hxt, ih]

/-- C7: in any database state, `getMessages` returns exactly the stored
messages (a permutation), in non-decreasing `createdAt` order, and ties
keep their stored (insertion) order: for each timestamp the sublist of
messages carrying it is unchanged. -/
theorem getMessages_sorted_stable (db : DB) :
    List.Sorted msgLE (getMessages db) ∧
    (getMessages db).Perm db.messages ∧
    ∀ t : Int, (getMessages db).filter (fun m => m.createdAt == t) =
      db.messages.filter (fun m => m.createdAt == t) :=
  ⟨List.sorted_insertionSort msgLE db.messages,
   List.perm_insertionSort msgLE db.messages,
   fun t => filter_createdAt_insertionSort t db.messages⟩

/-- C8: `getAllUsers` and `getOnlineUsers` each yield exactly one record
per stored user — `getOnlineUsers` performs no activity filtering — and
every returned record has the password stripped. -/
theorem users_listings_strip_password (db : DB) (st : StorageState) :
    (getAllUsers db).length = db.users.length ∧
    (getOnlineUsers db st).length = db.users.length ∧
    ((getAllUsers db).all fun u => u.password.isNone) = true ∧
    ((getOnlineUsers db st).all fun u => u.password.isNone) = true := by
  refine ⟨?_, ?_, ?_, ?_⟩
  · simp [getAllUsers]
  · simp [getOnlineUsers]
  · simp [getAllUsers, List.all_eq_true, stripPassword]
  · simp [getOnlineUsers, List.all_eq_true, stripPassword]

/-- C9: under the database id invariant (every stored id is below the
sequence counter), creating a user from a payload whose email and
username are free yields an id strictly above every previously issued id,
and re-establishes the invariant. -/
theorem createUser_id_strictly_increasing (db : DB) (s : SignUpData)
    (now : Int)
    (_hemail : getUserByEmail db s.email = none)
    (_husername : getUserByUsername db s.username = none)
    (hinv : ∀ u ∈ db.users, u.id < db.nextUserId) :
    (∀ u ∈ db.users, u.id < (createUser db s now).2.id) ∧
    (∀ u ∈ (createUser db s now).1.users,
      u.id < (createUser db s now).1.nextUserId) := by
  constructor
  · intro u hu
    simpa [createUser] using hinv u hu
  · intro u hu
    simp only [createUser, List.mem_append, List.mem_singleton] at hu
    rcases hu with hu | rfl
    · exact Nat.lt_succ_of_lt (hinv u hu)
    · exact Nat.lt_succ_self _

/-- Witness for C9: a fresh payload on `dbOneAuthor`. -/
theorem createUser_id_strictly_increasing_witness :
    getUserByEmail dbOneAuthor "b@x.com" = none ∧
    getUserByUsername dbOneAuthor "bobby" = none ∧
    (∀ u ∈ dbOneAuthor.users, u.id < dbOneAuthor.nextUserId) ∧
    ((∀ u ∈ dbOneAuthor.users,
        u.id < (createUser dbOneAuthor
          ⟨"bobby", "b@x.com", "pw3", "Bob", "B"⟩ 99).2.id) ∧
     (∀ u ∈ (createUser dbOneAuthor
          ⟨"bobby", "b@x.com", "pw3", "Bob", "B"⟩ 99).1.users,
        u.id < (createUser dbOneAuthor
          ⟨"bobby", "b@x.com", "pw3", "Bob", "B"⟩ 99).1.nextUserId)) :=
  ⟨by decide, by decide, by decide,
    createUser_id_strictly_increasing dbOneAuthor
      ⟨"bobby", "b@x.com", "pw3", "Bob", "B"⟩ 99
      (by decide) (by decide) (by decide)⟩

/-- No state-touching operation ever writes the themes map: a successful
`setActiveTheme` only repoints `currentTheme`, a failed one throws before
mutating, and heartbeats touch only `userActivity`. -/
lemma applyOp_themes (st : StorageState) (db : DB) (op : StOp) :
    ((applyOp st db op).1).themes = st.themes := by
  cases op with
  | setTheme tid =>
    simp only [applyOp, setActiveTheme]
    cases h : st.themes tid <;> simp
  | heartbeat uid now => rfl

/-- The themes map survives any interleaving of operations. -/
lemma applyOps_themes (ops : List StOp) (st : StorageState) (db : DB) :
    ((applyOps ops st db).1).themes = st.themes := by
  induction ops generalizing st db with
  | nil => rfl
  | cons op ops ih =>
    have hstep : applyOps (op :: ops) st db =
        applyOps ops (applyOp st db op).1 (applyOp st db op).2 := rfl
    rw [hstep, ih, applyOp_themes]

/-- A successful `setActiveTheme` found its theme in the map, kept the
map intact, and made the found theme the active one. -/
lemma setActiveTheme_ok (st : StorageState) (tid : Nat) (th : ChatTheme)
    (hok : (setActiveTheme st tid).2 = Except.ok th) :
    st.themes tid = some th ∧
    (setActiveTheme st tid).1.themes = st.themes ∧
    getActiveTheme (setActiveTheme st tid).1 = th := by
  cases hlook : st.themes tid with
  | none => simp [setActiveTheme, hlook] at hok
  | some th' =>
    have hok' : th' = th := by
      simpa [setActiveTheme, hlook] using hok
    subst hok'
    exact ⟨rfl, by simp [setActiveTheme, hlook],
      by simp [setActiveTheme, hlook, getActiveTheme]⟩

/-- Every seeded theme other than the one with id 1 carries
`isActive = false`. -/
lemma themesMap_some_isActive (tid : Nat) (th : ChatTheme)
    (h : themesMap tid = some th) (htid : tid ≠ 1) : th.isActive = false := by
  have h' : defaultThemes.find? (fun x => x.id == tid) = some th := h
  have hp := List.find?_some h'
  have hmem : th ∈ defaultThemes := List.mem_of_find?_eq_some h'
  simp only [defaultThemes, List.mem_cons, List.not_mem_nil, or_false] at hmem
  rcases hmem with rfl | rfl | rfl | rfl | rfl | rfl
  · simp at hp
    exact absurd hp.symm htid
  · rfl
  · rfl
  · rfl
  · rfl
  · rfl

/-- C10: starting from the seeded themes map, after any interleaving of
operations a successful `setActiveTheme tid` with `tid ≠ 1` leaves every
seeded `isActive` flag untouched: the map is still the seeded one, the
now-active theme carries `isActive = false`, and theme 1 still carries
`isActive = true`. -/
theorem setActiveTheme_keeps_isActive_flags (ops : List StOp)
    (st : StorageState) (db : DB) (tid : Nat) (th : ChatTheme)
    (hst : st.themes = themesMap) (htid : tid ≠ 1)
    (hok : (setActiveTheme (applyOps ops st db).1 tid).2 = Except.ok th) :
    (applyOps ops st db).1.themes = themesMap ∧
    (setActiveTheme (applyOps ops st db).1 tid).1.themes = themesMap ∧
    getActiveTheme (setActiveTheme (applyOps ops st db).1 tid).1 = th ∧
    th.isActive = false ∧
    (∃ t1, themesMap 1 = some t1 ∧ t1.isActive = true) := by
  have hthemes : (applyOps ops st db).1.themes = themesMap := by
    rw [applyOps_themes, hst]
  obtain ⟨hfound, hpres, hcur⟩ := setActiveTheme_ok _ tid th hok
  rw [hthemes] at hfound
  exact ⟨hthemes, by rw [hpres, hthemes], hcur,
    themesMap_some_isActive tid th hfound htid, ⟨_, rfl, rfl⟩⟩

/-- Witness for C10: a heartbeat then a switch to theme 3, followed by a
successful switch to theme 4, on the freshly constructed storage. -/
theorem setActiveTheme_keeps_isActive_flags_witness :
    initialStorage.themes = themesMap ∧ (4 : Nat) ≠ 1 ∧
    (setActiveTheme
      (applyOps [StOp.heartbeat 1 5, StOp.setTheme 3]
        initialStorage dbOneAuthor).1 4).2
        = Except.ok ((themesMap 4).getD default) ∧
    ((applyOps [StOp.heartbeat 1 5, StOp.setTheme 3]
        initialStorage dbOneAuthor).1.themes = themesMap ∧
     (setActiveTheme
        (applyOps [StOp.heartbeat 1 5, StOp.setTheme 3]
          initialStorage dbOneAuthor).1 4).1.themes = themesMap ∧
     getActiveTheme
        (setActiveTheme
          (applyOps [StOp.heartbeat 1 5, StOp.setTheme 3]
            initialStorage dbOneAuthor).1 4).1 = (themesMap 4).getD default ∧
     ((themesMap 4).getD default).isActive = false ∧
     (∃ t1, themesMap 1 = some t1 ∧ t1.isActive = true)) :=
  ⟨rfl, by decide, rfl,
    setActiveTheme_keeps_isActive_flags [StOp.heartbeat 1 5, StOp.setTheme 3]
      initialStorage dbOneAuthor 4 ((themesMap 4).getD default)
      rfl (by decide) rfl⟩

end ChatWeb
